import Mathlib

/-!
Shallow embedding of the "Dashboard Pace de 6" Strava dashboard
(`app_strava.py`, `login.py`, `desempenho_corridas.py`).

Modelling conventions:
* Python floats are modelled as rationals (`ℚ`); `round(x, 2)` / pandas
  `.round(2)` is modelled as decimal rounding to two places (`round2`).
* Python `int()` truncation and float `%` are modelled by `pytrunc` and
  `pymod` with Python's semantics (`x % m = x - m * floor (x / m)`).
* HTTP calls are modelled by oracles: a response is `Except String r`
  (`Except.error` is a raised `requests.RequestException`, which also
  covers `raise_for_status` on an error status); a sequence of calls is
  an oracle `Nat → Except String r`.  Functions return, next to their
  value, the number of HTTP requests they performed.
* A pandas DataFrame with `n` rows is a record of columns `Fin n → ℚ`
  (or `Fin n → String`); a column that may be absent from the frame is
  an `Option` of such a function (`none` = the column is missing, which
  is how the Strava API omitting a field surfaces in the frame).
  Date-derived columns (`data_inicio`, `ano`, `display_name`) involve
  datetime parsing and are outside the model; no claim refers to them.
-/

namespace StravaDash

/-- Decimal rounding to two places, modelling Python `round(x, 2)` and
pandas `.round(2)` (the tie-breaking rule at exact half-cents is not
observable in any claim). -/
def round2 (x : ℚ) : ℚ := round (x * 100) / 100

/-- Python `int()` on a float: truncation toward zero. -/
def pytrunc (x : ℚ) : ℤ := if 0 ≤ x then ⌊x⌋ else ⌈x⌉

/-- Python float modulo: `x % m = x - m * floor (x / m)`. -/
def pymod (x m : ℚ) : ℚ := x - m * ⌊x / m⌋

/-- Python `f"{n:02}"`: decimal digits of `n`, left-padded with `0` to
width two. -/
def pad2 (n : Nat) : String := if n < 10 then "0" ++ toString n else toString n

/-- From `app_strava.py`, `tratar_dados`'s inner `formatar_pace`:
`"N/A"` for non-positive pace, otherwise `f"{int(p):02}:{int((p*60)%60):02} min/km"`. -/
def formatar_pace (pace_decimal : ℚ) : String :=
  if pace_decimal ≤ 0 then "N/A"
  else
    pad2 (pytrunc pace_decimal).toNat ++ ":" ++
      pad2 (pytrunc (pymod (pace_decimal * 60) 60)).toNat ++ " min/km"

/-- Token payload stored in `st.session_state["strava_token_data"]`.
Fields read through `.get(...)` in the source are `Option`s. -/
structure TokenData where
  access_token : String
  refresh_token : Option String
  expires_at : Option ℚ
deriving DecidableEq

/-- The `client_config` dict stored in the session by `login.py`. -/
structure ClientConfig where
  client_id : String
  client_secret : String
  redirect_uri : String
deriving DecidableEq

/-- In-memory `st.session_state`: the two keys the refresh flow reads,
plus the remaining keys of the session as an association list. -/
structure SessionState where
  strava_token_data : Option TokenData
  client_config : Option ClientConfig
  other_keys : List (String × String)
deriving DecidableEq

/-- The session after `for key in list(st.session_state.keys()): del
st.session_state[key]`: every key deleted. -/
def SessionState.clear : SessionState :=
  { strava_token_data := none, client_config := none, other_keys := [] }

/-- From `login.py`, `exchange_code_for_token`: a single `requests.post`
to the token endpoint; on a `RequestException` it returns `None`, on
success the parsed JSON body.  The oracle gives the response of the
`i`-th POST the function would make; the second component of the result
counts the POSTs actually performed. -/
def exchange_code_for_token (oracle : Nat → Except String TokenData) :
    Option TokenData × Nat :=
  match oracle 0 with
  | Except.ok token => (some token, 1)
  | Except.error _ => (none, 1)

/-- From `login.py`, `refresh_token_if_needed` at time `now`
(`time.time()`): returns the unchanged session doing no request when the
token data or the client config is absent, or when
`expires_at and expires_at > now + 60`; otherwise it POSTs once
(response `post`), storing the refreshed token on success and deleting
every session key on failure (the subsequent `st.rerun()` only restarts
the script).  The `Nat` component counts HTTP requests performed. -/
def refresh_token_if_needed (now : ℚ) (post : Except String TokenData)
    (s : SessionState) : SessionState × Nat :=
  match s.strava_token_data, s.client_config with
  | some token_data, some _cfg =>
    let expires_at : ℚ := token_data.expires_at.getD 0
    if expires_at ≠ 0 ∧ now + 60 < expires_at then (s, 0)
    else
      match post with
      | Except.ok refreshed => ({ s with strava_token_data := some refreshed }, 1)
      | Except.error _ => (SessionState.clear, 1)
  | _, _ => (s, 0)

/-- The end of `carregar_todas_atividades` (`app_strava.py`): after the
loop, an empty accumulator turns into
`(None, "Nenhuma atividade encontrada.")`, otherwise the accumulated
activities become the DataFrame of the `(df, None)` result. -/
def finalizar {α : Type} (todas_atividades : List α) :
    Option (List α) × Option String :=
  if todas_atividades.isEmpty then (none, some "Nenhuma atividade encontrada.")
  else (some todas_atividades, none)

/-- The `while True` loop of `carregar_todas_atividades`: `resp p` is
the decoded JSON of the page-`p` request (`per_page=100` is part of the
request, not of the control flow).  `fuel` bounds the number of
iterations still allowed; `none` means the fuel ran out, i.e. the real
loop would still be running. -/
def carregar_loop {α : Type} (resp : Nat → Except String (List α)) :
    Nat → Nat → List α → Option (Option (List α) × Option String)
  | 0, _, _ => none
  | fuel + 1, pagina, acc =>
    match resp pagina with
    | Except.error e =>
        some (none, some ("Erro ao buscar atividades (página " ++ toString pagina ++
          "): " ++ e))
    | Except.ok dados_pagina =>
        if dados_pagina.isEmpty then some (finalizar acc)
        else carregar_loop resp fuel (pagina + 1) (acc ++ dados_pagina)

/-- From `app_strava.py`, `carregar_todas_atividades`: page-by-page
fetch starting at page 1, accumulating the pages until the first empty
response. -/
def carregar_todas_atividades {α : Type} (resp : Nat → Except String (List α))
    (fuel : Nat) : Option (Option (List α) × Option String) :=
  carregar_loop resp fuel 1 []

/-- The activity list of page `p` on success, `[]` on a failed request. -/
def pageData {α : Type} (resp : Nat → Except String (List α)) (p : Nat) : List α :=
  ((resp p).toOption).getD []

/-- Concatenation, in page order, of the pages `start, start+1, ...,
start+cnt-1`. -/
def concatPages {α : Type} (resp : Nat → Except String (List α)) :
    Nat → Nat → List α
  | _, 0 => []
  | start, cnt + 1 => pageData resp start ++ concatPages resp (start + 1) cnt

/-- The `TRADUCOES_TIPO` dict of `app_strava.py`. -/
def TRADUCOES_TIPO : List (String × String) :=
  [("Run", "Corrida"), ("Ride", "Ciclismo"), ("Swim", "Natação"),
   ("Walk", "Caminhada"), ("Hike", "Trilha"), ("TrailRun", "Corrida em Trilha"),
   ("WeightTraining", "Musculação"), ("Yoga", "Yoga"), ("Workout", "Treino Geral")]

/-- Contiguous-sublist test: `needle` occurs inside `hay`. -/
def containsSub (needle : List Char) : List Char → Bool
  | [] => needle.isEmpty
  | c :: rest => needle.isPrefixOf (c :: rest) || containsSub needle rest

/-- Python `"prova" in name.lower()` (the names in play are ASCII, where
`String.toLower` agrees with `str.lower`). -/
def containsProva (nm : String) : Bool :=
  containsSub "prova".data nm.toLower.data

/-- From `app_strava.py`, `tratar_dados`'s inner
`classificar_corrida_prova`, on the row fields it reads. -/
def classificar_corrida_prova (workout_type : ℚ) (nm ty : String)
    (dist : ℚ) : String :=
  if ¬(workout_type = 1 ∨ containsProva nm = true) ∨ ty ≠ "Run" then "Não é prova"
  else if 4.9 ≤ dist ∧ dist < 5.2 then "5k"
  else if 9.9 ≤ dist ∧ dist < 10.2 then "10k"
  else if 21.0 ≤ dist ∧ dist < 21.3 then "Meia Maratona"
  else if 42.0 ≤ dist ∧ dist < 42.4 then "Maratona"
  else "Distância não padrão"

/-- From `app_strava.py`, `tratar_dados`'s inner
`classificar_categoria_corrida`, on the row fields it reads. -/
def classificar_categoria_corrida (ty : String) (workout_type : ℚ) : String :=
  if ty ≠ "Run" then "N/A"
  else if workout_type = 1 then "Prova"
  else if workout_type = 2 then "Treino Longo"
  else if workout_type = 3 then "Treino de Intervalo"
  else "Treino"

/-- The raw activity DataFrame (`df_bruto`) with `n` rows, as returned
by the activities endpoint.  The numeric columns that `tratar_dados`
defaults to `0` when missing, and `gear_id`, are `Option`s at the frame
level. -/
structure RawFrame (n : Nat) where
  distance : Option (Fin n → ℚ)
  moving_time : Option (Fin n → ℚ)
  average_speed : Option (Fin n → ℚ)
  total_elevation_gain : Option (Fin n → ℚ)
  kudos_count : Option (Fin n → ℚ)
  average_heartrate : Option (Fin n → ℚ)
  max_speed : Option (Fin n → ℚ)
  average_watts : Option (Fin n → ℚ)
  workout_type : Option (Fin n → ℚ)
  name : Fin n → String
  type : Fin n → String
  gear_id : Option (Fin n → Option String)

/-- The DataFrame produced by `tratar_dados`: the defaulted raw columns
plus every derived column a claim refers to. -/
structure TreatedFrame (n : Nat) where
  distance : Fin n → ℚ
  moving_time : Fin n → ℚ
  average_speed : Fin n → ℚ
  total_elevation_gain : Fin n → ℚ
  kudos_count : Fin n → ℚ
  average_heartrate : Fin n → ℚ
  max_speed : Fin n → ℚ
  average_watts : Fin n → ℚ
  workout_type : Fin n → ℚ
  name : Fin n → String
  type : Fin n → String
  gear_id : Fin n → Option String
  distancia_km : Fin n → ℚ
  tempo_horas : Fin n → ℚ
  tempo_total_segundos : Fin n → ℚ
  vel_media_kmh : Fin n → ℚ
  pace_min_km : Fin n → ℚ
  pace_formatado : Fin n → String
  tipo_traduzido : Fin n → String
  tipo_corrida : Fin n → String
  categoria_corrida : Fin n → String

/-- From `app_strava.py`, `tratar_dados`: fills the possibly missing
columns with `0` (`gear_id` with `None`), then derives the metric
columns row by row. -/
def tratar_dados {n : Nat} (df : RawFrame n) : TreatedFrame n :=
  let distance := df.distance.getD fun _ => 0
  let moving_time := df.moving_time.getD fun _ => 0
  let average_speed := df.average_speed.getD fun _ => 0
  let total_elevation_gain := df.total_elevation_gain.getD fun _ => 0
  let kudos_count := df.kudos_count.getD fun _ => 0
  let average_heartrate := df.average_heartrate.getD fun _ => 0
  let max_speed := df.max_speed.getD fun _ => 0
  let average_watts := df.average_watts.getD fun _ => 0
  let workout_type := df.workout_type.getD fun _ => 0
  let distancia_km := fun i => round2 (distance i / 1000)
  let vel_media_kmh := fun i => round2 (average_speed i * 3.6)
  let pace_min_km := fun i =>
    if vel_media_kmh i > 0 then 60 / vel_media_kmh i else 0
  { distance := distance
    moving_time := moving_time
    average_speed := average_speed
    total_elevation_gain := total_elevation_gain
    kudos_count := kudos_count
    average_heartrate := average_heartrate
    max_speed := max_speed
    average_watts := average_watts
    workout_type := workout_type
    name := df.name
    type := df.type
    gear_id := df.gear_id.getD fun _ => none
    distancia_km := distancia_km
    tempo_horas := fun i => round2 (moving_time i / 3600)
    tempo_total_segundos := moving_time
    vel_media_kmh := vel_media_kmh
    pace_min_km := pace_min_km
    pace_formatado := fun i => formatar_pace (pace_min_km i)
    tipo_traduzido := fun i => (TRADUCOES_TIPO.lookup (df.type i)).getD (df.type i)
    tipo_corrida := fun i =>
      classificar_corrida_prova (workout_type i) (df.name i) (df.type i) (distancia_km i)
    categoria_corrida := fun i =>
      classificar_categoria_corrida (df.type i) (workout_type i) }

/-- One row of the `df_comp` table of `exibir_comparativo_tipos`
(column names before the presentational rename). -/
structure AggRow where
  tipo_traduzido : String
  total_atividades : ℚ
  distancia_total_km : ℚ
  tempo_total_horas : ℚ
  elevacao_total_m : ℚ
  vel_media_kmh : ℚ
  pace_medio_min_km : ℚ
deriving DecidableEq

/-- The pandas group of key `t` under `groupby("tipo_traduzido")`. -/
def grupo {n : Nat} (df : TreatedFrame n) (t : String) : Finset (Fin n) :=
  Finset.univ.filter fun i => df.tipo_traduzido i = t

/-- The aggregate row of group `t` in `exibir_comparativo_tipos`
(`app_strava.py`): count / sum / sum / sum / mean / mean, then
`.round(2)` over the whole frame. -/
def agg_tipo {n : Nat} (df : TreatedFrame n) (t : String) : AggRow :=
  let g := grupo df t
  { tipo_traduzido := t
    total_atividades := round2 g.card
    distancia_total_km := round2 (g.sum fun i => df.distancia_km i)
    tempo_total_horas := round2 (g.sum fun i => df.tempo_horas i)
    elevacao_total_m := round2 (g.sum fun i => df.total_elevation_gain i)
    vel_media_kmh := round2 ((g.sum fun i => df.vel_media_kmh i) / g.card)
    pace_medio_min_km := round2 ((g.sum fun i => df.pace_min_km i) / g.card) }

/-- From `app_strava.py`, `exibir_comparativo_tipos`'s `df_comp`: one
aggregate row per distinct `tipo_traduzido` key (pandas `groupby` sorts
the keys ascending). -/
def exibir_comparativo_tipos {n : Nat} (df : TreatedFrame n) : List AggRow :=
  (((Finset.univ : Finset (Fin n)).image df.tipo_traduzido).sort (· ≤ ·)).map
    (agg_tipo df)

/-- One row of the map DataFrame built by `decodificar_mapa`. -/
structure MapPoint where
  lat : ℚ
  lon : ℚ
deriving DecidableEq

/-- From `app_strava.py`, `decodificar_mapa`: `None` for a falsy
(`None` or empty) polyline string, `None` when the third-party
`polyline.decode` raises (modelled by the oracle `decode` returning
`Except.error`), otherwise the decoded points as a `lat`/`lon` frame. -/
def decodificar_mapa (decode : String → Except String (List (ℚ × ℚ))) :
    Option String → Option (List MapPoint)
  | none => none
  | some s =>
    if s = "" then none
    else
      match decode s with
      | Except.ok points => some (points.map fun p => { lat := p.1, lon := p.2 })
      | Except.error _ => none

/-! Concrete fixtures used by the witness theorems. -/

/-- Page oracle with two non-empty pages followed by empty pages. -/
def respTest : Nat → Except String (List Nat) :=
  fun p => Except.ok (if p < 3 then [p] else [])

/-- A one-row raw frame: a 5 km race run at 3 m/s. -/
def rawTest : RawFrame 1 :=
  { distance := some fun _ => 5000
    moving_time := some fun _ => 3600
    average_speed := some fun _ => 3
    total_elevation_gain := none
    kudos_count := none
    average_heartrate := none
    max_speed := none
    average_watts := none
    workout_type := some fun _ => 1
    name := fun _ => "Prova 5k"
    type := fun _ => "Run"
    gear_id := none }

/-- A token with a far-future expiry, for the refresh fixture. -/
def tokenTest : TokenData :=
  { access_token := "tok", refresh_token := some "ref", expires_at := some 1000 }

/-- A client config fixture. -/
def cfgTest : ClientConfig :=
  { client_id := "id", client_secret := "sec", redirect_uri := "http://localhost:8501" }

/-- A logged-in session holding `tokenTest` and `cfgTest`. -/
def sessionTest : SessionState :=
  { strava_token_data := some tokenTest
    client_config := some cfgTest
    other_keys := [("logged_in", "true")] }

/-- Decode oracle returning a fixed single point. -/
def decodeTest : String → Except String (List (ℚ × ℚ)) :=
  fun _ => Except.ok [(1, 2)]

/-- The treated one-row frame derived from `rawTest`. -/
def treatedTest : TreatedFrame 1 := tratar_dados rawTest

/-! ## Theorems -/

/-- Claim C3: `exchange_code_for_token` performs exactly one HTTP POST
per invocation (the count is 1), returns `None` on a request exception
without re-attempting (the result depends only on the first response of
the oracle), and returns the parsed JSON body on success
(`Except.toOption` maps `ok t` to `some t` and `error _` to `none`). -/
theorem C3_exchange_code_for_token_spec
    (oracle : Nat → Except String TokenData) :
    exchange_code_for_token oracle = ((oracle 0).toOption, 1) := by
  unfold exchange_code_for_token Except.toOption
  cases oracle 0 <;> rfl

/-- Claim C9: `tratar_dados` is total with respect to missing input
columns: each of the nine numeric columns it may default is, in the
output, the input column when present and the constant-`0` column when
absent, and the output always has a `gear_id` column, `None`-filled when
absent from the input; consequently every derived field is defined on
every input shape. -/
theorem C9_tratar_dados_total {n : Nat} (df : RawFrame n) :
    (tratar_dados df).distance = df.distance.getD (fun _ => 0) ∧
    (tratar_dados df).moving_time = df.moving_time.getD (fun _ => 0) ∧
    (tratar_dados df).average_speed = df.average_speed.getD (fun _ => 0) ∧
    (tratar_dados df).total_elevation_gain = df.total_elevation_gain.getD (fun _ => 0) ∧
    (tratar_dados df).kudos_count = df.kudos_count.getD (fun _ => 0) ∧
    (tratar_dados df).average_heartrate = df.average_heartrate.getD (fun _ => 0) ∧
    (tratar_dados df).max_speed = df.max_speed.getD (fun _ => 0) ∧
    (tratar_dados df).average_watts = df.average_watts.getD (fun _ => 0) ∧
    (tratar_dados df).workout_type = df.workout_type.getD (fun _ => 0) ∧
    (tratar_dados df).gear_id = df.gear_id.getD (fun _ => none) :=
  ⟨rfl, rfl, rfl, rfl, rfl, rfl, rfl, rfl, rfl, rfl⟩

/-- Claim C6: for every row, `pace_min_km` is `60 / vel_media_kmh` when
`vel_media_kmh > 0` and `0` otherwise, so the derivation never divides
by zero and the pace is defined and non-negative on every activity. -/
theorem C6_pace_min_km_safe {n : Nat} (df : RawFrame n) (i : Fin n) :
    (tratar_dados df).pace_min_km i =
      (if 0 < (tratar_dados df).vel_media_kmh i
        then 60 / (tratar_dados df).vel_media_kmh i else 0) ∧
    0 ≤ (tratar_dados df).pace_min_km i := by
  refine ⟨rfl, ?_⟩
  show (0 : ℚ) ≤ if 0 < (tratar_dados df).vel_media_kmh i
    then 60 / (tratar_dados df).vel_media_kmh i else 0
  split_ifs with h
  · positivity
  · exact le_refl 0

/-- Claim C5: for every input row with the three source columns
present, `tratar_dados` derives `distancia_km = round2 (distance /
1000)`, `tempo_horas = round2 (moving_time / 3600)`, `vel_media_kmh =
round2 (average_speed * 3.6)` and `tempo_total_segundos = moving_time`
unchanged. -/
theorem C5_derived_metrics {n : Nat} (df : RawFrame n)
    (dist mt sp : Fin n → ℚ)
    (hd : df.distance = some dist) (hm : df.moving_time = some mt)
    (hs : df.average_speed = some sp) (i : Fin n) :
    (tratar_dados df).distancia_km i = round2 (dist i / 1000) ∧
    (tratar_dados df).tempo_horas i = round2 (mt i / 3600) ∧
    (tratar_dados df).vel_media_kmh i = round2 (sp i * 3.6) ∧
    (tratar_dados df).tempo_total_segundos i = mt i := by
  refine ⟨?_, ?_, ?_, ?_⟩ <;> simp [tratar_dados, hd, hm, hs]

/-- Witness for C5 on the concrete one-row frame `rawTest`. -/
theorem C5_derived_metrics_witness :
    (tratar_dados rawTest).distancia_km 0 = round2 (5000 / 1000) ∧
    (tratar_dados rawTest).tempo_horas 0 = round2 (3600 / 3600) ∧
    (tratar_dados rawTest).vel_media_kmh 0 = round2 (3 * 3.6) ∧
    (tratar_dados rawTest).tempo_total_segundos 0 = 3600 :=
  C5_derived_metrics rawTest (fun _ => 5000) (fun _ => 3600) (fun _ => 3)
    rfl rfl rfl 0

/-- Claim C10: `decodificar_mapa` never raises: it returns `None` for a
`None` or empty polyline string, `None` when the decoder raises, and
for a successful decode a frame with exactly the columns `lat` and
`lon`, one row per decoded point in order (totality itself is inherent
in the embedding: the function is defined on every input). -/
theorem C10_decodificar_mapa_spec
    (decode : String → Except String (List (ℚ × ℚ))) (s : Option String) :
    (s = none → decodificar_mapa decode s = none) ∧
    (s = some "" → decodificar_mapa decode s = none) ∧
    (∀ str e, s = some str → str ≠ "" → decode str = Except.error e →
      decodificar_mapa decode s = none) ∧
    (∀ str pts, s = some str → str ≠ "" → decode str = Except.ok pts →
      decodificar_mapa decode s =
        some (pts.map fun p => { lat := p.1, lon := p.2 })) := by
  refine ⟨?_, ?_, ?_, ?_⟩
  · rintro rfl; rfl
  · rintro rfl; simp [decodificar_mapa]
  · rintro str e rfl hne hdec; simp [decodificar_mapa, hne, hdec]
  · rintro str pts rfl hne hdec; simp [decodificar_mapa, hne, hdec]

/-- Witness for C10: a successful decode of a non-empty string. -/
theorem C10_decodificar_mapa_witness :
    decodificar_mapa decodeTest (some "abc") =
      some ([((1 : ℚ), (2 : ℚ))].map fun p => { lat := p.1, lon := p.2 }) :=
  (C10_decodificar_mapa_spec decodeTest (some "abc")).2.2.2 "abc" [(1, 2)]
    rfl (by decide) rfl

/-- The inner `classificar_corrida_prova`, rephrased the way claim C2
words it: `"Não é prova"` unless the type is `"Run"` and the race
condition holds, then the bucket by distance. -/
theorem classificar_corrida_prova_eq_claim (wt : ℚ) (nm ty : String) (dist : ℚ) :
    classificar_corrida_prova wt nm ty dist =
      if ¬(ty = "Run" ∧ (wt = 1 ∨ containsProva nm = true)) then "Não é prova"
      else if 4.9 ≤ dist ∧ dist < 5.2 then "5k"
      else if 9.9 ≤ dist ∧ dist < 10.2 then "10k"
      else if 21.0 ≤ dist ∧ dist < 21.3 then "Meia Maratona"
      else if 42.0 ≤ dist ∧ dist < 42.4 then "Maratona"
      else "Distância não padrão" := by
  unfold classificar_corrida_prova
  by_cases h1 : ty = "Run" <;> by_cases h2 : wt = 1 ∨ containsProva nm = true <;>
    simp [h1, h2]

/-- Claim C2: for every activity row, `tipo_corrida` is
`"Não é prova"` unless the row's type is `"Run"` and (`workout_type`
equals 1 or the lowercased name contains `"prova"`); when the race
condition holds, the label is `"5k"` on `[4.9, 5.2)`, `"10k"` on
`[9.9, 10.2)`, `"Meia Maratona"` on `[21.0, 21.3)`, `"Maratona"` on
`[42.0, 42.4)`, and `"Distância não padrão"` otherwise. -/
theorem C2_tipo_corrida_spec {n : Nat} (df : RawFrame n) (i : Fin n) :
    (tratar_dados df).tipo_corrida i =
      if ¬((tratar_dados df).type i = "Run" ∧
          ((tratar_dados df).workout_type i = 1 ∨
            containsProva ((tratar_dados df).name i) = true))
      then "Não é prova"
      else if 4.9 ≤ (tratar_dados df).distancia_km i ∧
          (tratar_dados df).distancia_km i < 5.2 then "5k"
      else if 9.9 ≤ (tratar_dados df).distancia_km i ∧
          (tratar_dados df).distancia_km i < 10.2 then "10k"
      else if 21.0 ≤ (tratar_dados df).distancia_km i ∧
          (tratar_dados df).distancia_km i < 21.3 then "Meia Maratona"
      else if 42.0 ≤ (tratar_dados df).distancia_km i ∧
          (tratar_dados df).distancia_km i < 42.4 then "Maratona"
      else "Distância não padrão" :=
  classificar_corrida_prova_eq_claim _ _ _ _

/-- Claim C4: under non-negative wall-clock time,
`refresh_token_if_needed` returns with no HTTP request and an unchanged
session whenever the stored `expires_at` is more than 60 seconds in the
future, or when the token data or the client config is absent; it
attempts a refresh (exactly one request) only otherwise, and when that
single request fails it deletes every key of the session state. -/
theorem C4_refresh_token_if_needed_spec (now : ℚ)
    (post : Except String TokenData) (s : SessionState) (hnow : 0 ≤ now) :
    (∀ td cc, s.strava_token_data = some td → s.client_config = some cc →
      now + 60 < td.expires_at.getD 0 →
      refresh_token_if_needed now post s = (s, 0)) ∧
    (s.strava_token_data = none → refresh_token_if_needed now post s = (s, 0)) ∧
    (s.client_config = none → refresh_token_if_needed now post s = (s, 0)) ∧
    (∀ td cc, s.strava_token_data = some td → s.client_config = some cc →
      ¬(now + 60 < td.expires_at.getD 0) →
      (refresh_token_if_needed now post s).2 = 1) ∧
    (∀ td cc e, s.strava_token_data = some td → s.client_config = some cc →
      ¬(now + 60 < td.expires_at.getD 0) → post = Except.error e →
      refresh_token_if_needed now post s = (SessionState.clear, 1)) := by
  obtain ⟨tok, cfg, keys⟩ := s
  refine ⟨?_, ?_, ?_, ?_, ?_⟩
  · rintro td cc rfl rfl hfresh
    have hne : td.expires_at.getD 0 ≠ 0 := by
      have h0 : (0 : ℚ) < td.expires_at.getD 0 := by linarith
      exact ne_of_gt h0
    simp only [refresh_token_if_needed]
    rw [if_pos ⟨hne, hfresh⟩]
  · rintro rfl; rfl
  · rintro rfl; cases tok <;> rfl
  · rintro td cc rfl rfl hstale
    have hcond : ¬(td.expires_at.getD 0 ≠ 0 ∧ now + 60 < td.expires_at.getD 0) :=
      fun h => hstale h.2
    simp only [refresh_token_if_needed]
    rw [if_neg hcond]
    cases post <;> rfl
  · rintro td cc e rfl rfl hstale rfl
    have hcond : ¬(td.expires_at.getD 0 ≠ 0 ∧ now + 60 < td.expires_at.getD 0) :=
      fun h => hstale h.2
    simp only [refresh_token_if_needed]
    rw [if_neg hcond]

/-- Witness for C4: with a token expiring at 1000 and the clock at 0,
the session is returned unchanged with zero requests, even though the
pending response is an error. -/
theorem C4_refresh_token_if_needed_witness :
    refresh_token_if_needed 0 (Except.error "x") sessionTest = (sessionTest, 0) :=
  (C4_refresh_token_if_needed_spec 0 (Except.error "x") sessionTest
    (le_refl 0)).1 tokenTest cfgTest rfl rfl (by norm_num [tokenTest])


/-- Python float modulo by a positive modulus is non-negative. -/
theorem pymod_nonneg (x m : ℚ) (hm : 0 < m) : 0 ≤ pymod x m := by
  unfold pymod
  have h := Int.floor_le (x / m)
  have : (⌊x / m⌋ : ℚ) * m ≤ x := by
    rw [← le_div_iff₀ hm] at *
    exact h
  nlinarith

/-- Floor of the Python modulo `(p * 60) % 60` is the integer
`⌊p * 60⌋ % 60`. -/
theorem floor_pymod_sixty (p : ℚ) : ⌊pymod (p * 60) 60⌋ = ⌊p * 60⌋ % 60 := by
  have h60 : (p * 60) / 60 = p := mul_div_cancel_right₀ p (by norm_num)
  have hrw : pymod (p * 60) 60 = p * 60 - ((60 * ⌊p⌋ : ℤ) : ℚ) := by
    unfold pymod
    rw [h60]
    push_cast
    ring
  rw [hrw, Int.floor_sub_int]
  have hb : 60 * ⌊p⌋ ≤ ⌊p * 60⌋ := by
    rw [Int.le_floor]
    have := Int.floor_le p
    push_cast
    linarith
  have hub : ⌊p * 60⌋ < 60 * ⌊p⌋ + 60 := by
    rw [Int.floor_lt]
    have := Int.lt_floor_add_one p
    push_cast
    linarith
  omega

theorem C7_formatar_pace_spec (p : ℚ) :
    (formatar_pace p = "N/A" ↔ p ≤ 0) ∧
    (0 < p → formatar_pace p =
      pad2 ⌊p⌋.toNat ++ ":" ++ pad2 (⌊p * 60⌋ % 60).toNat ++ " min/km") := by
  have hpos : ∀ _hp : 0 < p, formatar_pace p =
      pad2 ⌊p⌋.toNat ++ ":" ++ pad2 (⌊p * 60⌋ % 60).toNat ++ " min/km" := by
    intro hp
    have e1 : pytrunc p = ⌊p⌋ := by simp [pytrunc, hp.le]
    have e2 : pytrunc (pymod (p * 60) 60) = ⌊p * 60⌋ % 60 := by
      have hnn : 0 ≤ pymod (p * 60) 60 := pymod_nonneg _ _ (by norm_num)
      simp [pytrunc, hnn, floor_pymod_sixty]
    unfold formatar_pace
    rw [if_neg (not_le.mpr hp), e1, e2]
  refine ⟨⟨?_, ?_⟩, hpos⟩
  · intro h
    by_contra hle
    push_neg at hle
    rw [hpos hle] at h
    have hlen := congrArg String.length h
    rw [String.length_append, String.length_append, String.length_append] at hlen
    have h1 : (":" : String).length = 1 := rfl
    have h2 : (" min/km" : String).length = 7 := rfl
    have h3 : ("N/A" : String).length = 3 := rfl
    rw [h1, h2, h3] at hlen
    omega
  · intro h
    unfold formatar_pace
    rw [if_pos h]

theorem C7_formatar_pace_witness :
    (0 : ℚ) < 13 / 2 ∧ formatar_pace (13 / 2) = "06:30 min/km" :=
  ⟨by norm_num,
    ((C7_formatar_pace_spec (13 / 2)).2 (by norm_num)).trans (by norm_num [pad2]; rfl)⟩


/-- Decimal rounding to two places fixes whole numbers, so the
`.round(2)` after the `groupby` aggregation leaves the row count
unchanged. -/
theorem round2_natCast (c : Nat) : round2 (c : ℚ) = c := by
  unfold round2
  have h : ((c : ℚ) * 100) = ((c * 100 : ℤ) : ℚ) := by push_cast; ring
  rw [h, round_intCast]
  push_cast
  rw [mul_div_assoc]
  norm_num

theorem C8_comparativo_tipos_spec {n : Nat} (df : TreatedFrame n) (t : String)
    (h : ∃ i, df.tipo_traduzido i = t) :
    agg_tipo df t ∈ exibir_comparativo_tipos df ∧
    (agg_tipo df t).total_atividades = (grupo df t).card ∧
    (agg_tipo df t).distancia_total_km =
      round2 ((grupo df t).sum fun i => df.distancia_km i) ∧
    (agg_tipo df t).tempo_total_horas =
      round2 ((grupo df t).sum fun i => df.tempo_horas i) ∧
    (agg_tipo df t).elevacao_total_m =
      round2 ((grupo df t).sum fun i => df.total_elevation_gain i) ∧
    (agg_tipo df t).vel_media_kmh =
      round2 (((grupo df t).sum fun i => df.vel_media_kmh i) / (grupo df t).card) ∧
    (agg_tipo df t).pace_medio_min_km =
      round2 (((grupo df t).sum fun i => df.pace_min_km i) / (grupo df t).card) ∧
    0 < (grupo df t).card := by
  obtain ⟨i, hi⟩ := h
  refine ⟨?_, round2_natCast _, rfl, rfl, rfl, rfl, rfl, ?_⟩
  · apply List.mem_map.mpr
    refine ⟨t, ?_, rfl⟩
    rw [Finset.mem_sort]
    exact Finset.mem_image.mpr ⟨i, Finset.mem_univ i, hi⟩
  · exact Finset.card_pos.mpr ⟨i, Finset.mem_filter.mpr ⟨Finset.mem_univ i, hi⟩⟩


/-- Witness for C8 on the one-row treated frame `treatedTest`, whose
single activity has `tipo_traduzido = "Corrida"`. -/
theorem C8_comparativo_tipos_witness :
    agg_tipo treatedTest "Corrida" ∈ exibir_comparativo_tipos treatedTest ∧
    (agg_tipo treatedTest "Corrida").total_atividades =
      (grupo treatedTest "Corrida").card ∧
    (agg_tipo treatedTest "Corrida").distancia_total_km =
      round2 ((grupo treatedTest "Corrida").sum fun i => treatedTest.distancia_km i) ∧
    (agg_tipo treatedTest "Corrida").tempo_total_horas =
      round2 ((grupo treatedTest "Corrida").sum fun i => treatedTest.tempo_horas i) ∧
    (agg_tipo treatedTest "Corrida").elevacao_total_m =
      round2 ((grupo treatedTest "Corrida").sum fun i =>
        treatedTest.total_elevation_gain i) ∧
    (agg_tipo treatedTest "Corrida").vel_media_kmh =
      round2 (((grupo treatedTest "Corrida").sum fun i =>
        treatedTest.vel_media_kmh i) / (grupo treatedTest "Corrida").card) ∧
    (agg_tipo treatedTest "Corrida").pace_medio_min_km =
      round2 (((grupo treatedTest "Corrida").sum fun i =>
        treatedTest.pace_min_km i) / (grupo treatedTest "Corrida").card) ∧
    0 < (grupo treatedTest "Corrida").card :=
  C8_comparativo_tipos_spec treatedTest "Corrida" ⟨0, rfl⟩


/-- Invariant of the fetch loop: starting at page `start ≤ k` with
accumulator `acc`, where `k` is an empty page, every earlier page from 1
on is a non-empty success, and enough fuel remains, the loop finishes
with the pages `start..k-1` appended to `acc`. -/
theorem carregar_loop_spec {α : Type} (resp : Nat → Except String (List α))
    (k : Nat) (hempty : resp k = Except.ok [])
    (hbefore : ∀ p, p < k → 1 ≤ p →
      (resp p).toOption = some (pageData resp p) ∧ pageData resp p ≠ []) :
    ∀ fuel start acc, 1 ≤ start → start ≤ k → k - start < fuel →
      carregar_loop resp fuel start acc =
        some (finalizar (acc ++ concatPages resp start (k - start))) := by
  intro fuel
  induction fuel with
  | zero => intro start acc _ _ h3; omega
  | succ fuel ih =>
    intro start acc h1 h2 h3
    rcases eq_or_lt_of_le h2 with heq | hlt
    · subst heq
      simp only [carregar_loop, hempty, List.isEmpty_nil, if_true]
      rw [Nat.sub_self]
      simp [concatPages]
    · obtain ⟨hok, hne⟩ := hbefore start hlt h1
      have hresp : resp start = Except.ok (pageData resp start) := by
        cases hr : resp start with
        | error e => rw [hr] at hok; simp [Except.toOption] at hok
        | ok xs => simp [pageData, hr, Except.toOption]
      have hie : (pageData resp start).isEmpty = false := by
        cases hpd : pageData resp start
        · exact absurd hpd hne
        · rfl
      simp only [carregar_loop, hresp, hie, Bool.false_eq_true, if_false]
      rw [ih (start + 1) (acc ++ pageData resp start) (by omega) (by omega) (by omega)]
      have hks : k - start = (k - (start + 1)) + 1 := by omega
      rw [hks]
      simp only [concatPages]
      rw [List.append_assoc]

theorem C1_carregar_todas_atividades_spec {α : Type}
    (resp : Nat → Except String (List α)) (k fuel : Nat)
    (hk : 1 ≤ k) (hfuel : k ≤ fuel) (hempty : resp k = Except.ok [])
    (hbefore : ∀ p, p < k → 1 ≤ p →
      (resp p).toOption = some (pageData resp p) ∧ pageData resp p ≠ []) :
    carregar_todas_atividades resp fuel =
      some (finalizar (concatPages resp 1 (k - 1))) := by
  unfold carregar_todas_atividades
  have h := carregar_loop_spec resp k hempty hbefore fuel 1 [] (le_refl 1) hk
    (by omega)
  simpa using h

/-- Witness for C1: pages 1 and 2 hold one activity each, page 3 is
empty; the loop returns the concatenation as the DataFrame. -/
theorem C1_carregar_todas_atividades_witness :
    carregar_todas_atividades respTest 3 = some (some [1, 2], none) :=
  (C1_carregar_todas_atividades_spec respTest 3 3 (by decide) (by decide)
    rfl (by decide)).trans (by decide)

end StravaDash
